import Mathlib

/-!
Verification of the glance operator charm's storage-readiness evaluation and
configuration orchestration logic (src/src/charm.py).

The charm code is a thin layer over two external frameworks.  The observable
state a handler or the orchestrator can query is collected in `CharmState`;
methods of the charm become Lean functions over that state.  Pieces of the
inherited base classes that are not part of this repository (the parent
`CephClientHandler.ready`/`context`, `relation_handlers_ready`, and the
inherited generic `configure_charm`) are modelled from the specification and
carry a doc comment saying so.
-/

/-- Unit status as surfaced to the operator (`ops.model` status classes). -/
inductive Status where
  | active : Status
  | waiting : String → Status
  | blocked : String → Status
deriving Repr, DecidableEq

/-- A storage backend choice, per the spec's data model. -/
inductive StorageBackend where
  | localAttached : StorageBackend
  | networkedRemote : String → StorageBackend
deriving Repr, DecidableEq

/-- The evaluator's verdict, per the spec's data model. -/
inductive ReadinessVerdict where
  | notReady : String → ReadinessVerdict
  | ready : StorageBackend → ReadinessVerdict
deriving Repr, DecidableEq

/-- The observable state the charm's handlers and orchestrator read:
relation presence and negotiated data for the ceph relation, the juju
storage inventory, handshake status of the declared relations, the pebble
(process supervision) readiness signal, and the mutable pieces the
orchestrator writes (unit status, rendered configuration, bootstrap flag). -/
structure CharmState where
  cephRelationPresent : Bool
  cephKey : Option String
  cephData : List (String × String)
  localStorageCount : Nat
  relationHandlersReady : Bool
  pebbleReady : Bool
  bootstrapped : Bool
  unitStatus : Status
  renderedConfig : Option (List (String × String))
  appName : String
  baseContext : List (String × String)
deriving Repr, DecidableEq

/-- `GlanceOperatorCharm.has_local_storage`: true when the number of attached
units of the local-repository juju storage is greater than zero. -/
def has_local_storage (s : CharmState) : Bool :=
  decide (0 < s.localStorageCount)

/-- `GlanceOperatorCharm.has_ceph_relation`: true when the ceph relation
exists. -/
def has_ceph_relation (s : CharmState) : Bool :=
  s.cephRelationPresent

/-- Modelled from the spec: the parent `CephClientHandler.ready` sub-check
(not in this repository) is the generic relation-readiness rule, all required
negotiated attributes present; the required negotiated attribute is the
credential key. -/
def cephClientHandlerReady (s : CharmState) : Bool :=
  s.cephKey.isSome

/-- Modelled from the spec: the parent `CephClientHandler.context` (not in
this repository) exports the ceph relation's full negotiated-attribute
mapping. -/
def cephClientHandlerContext (s : CharmState) : List (String × String) :=
  s.cephData

/-- `GlanceStorageRelationHandler.ready`: if the ceph relation exists defer
to the parent sub-check; otherwise ready exactly when local storage is
attached. -/
def glanceStorageReady (s : CharmState) : Bool :=
  if has_ceph_relation s then cephClientHandlerReady s
  else if has_local_storage s then true
  else false

/-- `GlanceStorageRelationHandler.context`: the parent's mapping when the
ceph relation exists, empty otherwise. -/
def context (s : CharmState) : List (String × String) :=
  if has_ceph_relation s then cephClientHandlerContext s else []

/-- The spec's readiness evaluator, as realised by the code: the branch
structure of `GlanceStorageRelationHandler.ready` combined with the
credential-key gate of `GlanceOperatorCharm.configure_charm` (the code
returns booleans and early returns; the verdict's reason strings are the
spec's labels for those branches). -/
def evaluate (s : CharmState) : ReadinessVerdict :=
  if has_ceph_relation s then
    match s.cephKey with
    | some k => ReadinessVerdict.ready (StorageBackend.networkedRemote k)
    | none => ReadinessVerdict.notReady "credential key not yet present"
  else if has_local_storage s then ReadinessVerdict.ready StorageBackend.localAttached
  else ReadinessVerdict.notReady "no storage backend configured"

/-- A command issued through the pebble handler's execute interface,
together with its fail-on-nonzero-exit flag. -/
structure Command where
  args : List String
  exception_on_error : Bool
deriving Repr, DecidableEq

/-- The external collaborators' behaviour during one configuration run:
which executed commands succeed, and whether the inherited generic
configuration steps complete and set the bootstrap flag this run. -/
structure Env where
  execOk : List String → Bool
  superBootstraps : Bool

/-- Sequential execution of pebble commands: a command whose
fail-on-nonzero-exit flag is set raises on failure, so execution stops
there.  Returns the commands actually issued and whether all succeeded. -/
def runCmds (env : Env) : List Command → List Command × Bool
  | [] => ([], true)
  | c :: rest =>
    if env.execOk c.args then
      let r := runCmds env rest
      (c :: r.1, r.2)
    else if c.exception_on_error then
      ([c], false)
    else
      let r := runCmds env rest
      (c :: r.1, r.2)

/-- The three ceph provisioning commands of `configure_charm`, in source
order: apt repository refresh, ceph-common install, keyring creation
embedding the negotiated credential key.  Each passes
exception_on_error=True. -/
def provisioningCmds (appName key : String) : List Command :=
  [ { args := ["apt", "update"], exception_on_error := true },
    { args := ["apt", "install", "-y", "ceph-common"], exception_on_error := true },
    { args := [ "ceph-authtool",
                "/etc/ceph/ceph.client." ++ appName ++ ".keyring",
                "--create-keyring",
                "--name=client." ++ appName,
                "--add-key=" ++ key ],
      exception_on_error := true } ]

/-- The blocked-status message of `configure_charm` (the source builds it
from three adjacent string literals). -/
def blockedMsg : String :=
  "Missing storage. Relate to Ceph or add local storage to continue."

/-- Modelled from the spec: the configuration contexts handed to the
config-rendering collaborator, the inherited generic contexts merged with
the storage handler's context() export. -/
def renderConfig (s : CharmState) : List (String × String) :=
  s.baseContext ++ context s

/-- Modelled from the spec: the inherited generic
`OSBaseOperatorAPICharm.configure_charm` (not in this repository).  It
renders the configuration from the current contexts; when the generic steps
complete it sets the bootstrap flag, which it never unsets, and reports the
unit Active once bootstrapped. -/
def superConfigureCharm (env : Env) (s : CharmState) : CharmState :=
  { s with renderedConfig := some (renderConfig s),
           bootstrapped := s.bootstrapped || env.superBootstraps,
           unitStatus :=
             if s.bootstrapped || env.superBootstraps then Status.active
             else s.unitStatus }

/-- The outcome of one `configure_charm` invocation: the post state, the
pebble commands issued in order, whether init_service ran, whether the
inherited generic configuration ran, whether the start loop over the pebble
handlers ran, and whether a command failure aborted the attempt. -/
structure ConfigureResult where
  state : CharmState
  cmds : List Command
  initServiceCalled : Bool
  superConfigureCalled : Bool
  servicesStarted : Bool
  aborted : Bool
deriving Repr, DecidableEq

/-- An early return of `configure_charm`: no commands, no init_service, no
inherited configuration, no service start. -/
def earlyReturn (s : CharmState) : ConfigureResult :=
  { state := s, cmds := [], initServiceCalled := false,
    superConfigureCalled := false, servicesStarted := false, aborted := false }

/-- The tail of `configure_charm` after the pebble section: the inherited
generic configuration runs, then the start loop over all pebble handlers
runs exactly when the bootstrap flag is set. -/
def finishConfigure (env : Env) (s : CharmState) (cmds : List Command)
    (initCalled : Bool) : ConfigureResult :=
  { state := superConfigureCharm env s, cmds := cmds,
    initServiceCalled := initCalled, superConfigureCalled := true,
    servicesStarted := (superConfigureCharm env s).bootstrapped,
    aborted := false }

/-- The pebble section of `configure_charm`: when the glance-api pebble
handler is ready, issue the ceph provisioning commands if the ceph relation
and key are present (an exception aborts the attempt), then init_service
renders the configuration from the contexts; in either case fall through to
the inherited configuration and the start loop. -/
def pebbleSection (env : Env) (s : CharmState) : ConfigureResult :=
  if s.pebbleReady then
    if has_ceph_relation s && s.cephKey.isSome then
      if (runCmds env (provisioningCmds s.appName (s.cephKey.getD ""))).2 then
        finishConfigure env { s with renderedConfig := some (renderConfig s) }
          (runCmds env (provisioningCmds s.appName (s.cephKey.getD ""))).1 true
      else
        { state := s,
          cmds := (runCmds env (provisioningCmds s.appName (s.cephKey.getD ""))).1,
          initServiceCalled := false, superConfigureCalled := false,
          servicesStarted := false, aborted := true }
    else
      finishConfigure env { s with renderedConfig := some (renderConfig s) } [] true
  else
    finishConfigure env s [] false

/-- `GlanceOperatorCharm.configure_charm`: return early when the declared
relations have not finished their handshake (relation_handlers_ready,
modelled from the spec as the observable signal that every declared
relation completed its internal handshake); wait while the ceph relation is
present without a key; go Blocked when neither ceph relation nor local
storage exists; otherwise run the pebble section, the inherited
configuration and the start loop. -/
def configure_charm (env : Env) (s : CharmState) : ConfigureResult :=
  if !s.relationHandlersReady then earlyReturn s
  else if has_ceph_relation s then
    if s.cephKey.isNone then earlyReturn s
    else pebbleSection env s
  else if has_local_storage s then pebbleSection env s
  else earlyReturn { s with unitStatus := Status.blocked blockedMsg }

/-- An environment where every command succeeds and the generic
configuration completes. -/
def envAllOk : Env :=
  { execOk := fun _ => true, superBootstraps := true }

/-- An environment where the package install command fails. -/
def envInstallFails : Env :=
  { execOk := fun a => decide (a ≠ ["apt", "install", "-y", "ceph-common"]),
    superBootstraps := true }

/-- Concrete state: ceph relation present, credential key still absent,
local storage also attached. -/
def stateCephWaiting : CharmState :=
  { cephRelationPresent := true, cephKey := none, cephData := [],
    localStorageCount := 3, relationHandlersReady := true,
    pebbleReady := true, bootstrapped := false,
    unitStatus := Status.active, renderedConfig := none,
    appName := "glance", baseContext := [] }

/-- Concrete state: ceph relation present and ready with a negotiated
credential key. -/
def stateCephReady : CharmState :=
  { cephRelationPresent := true, cephKey := some "AQCxyz",
    cephData := [("key", "AQCxyz"), ("auth", "cephx")],
    localStorageCount := 5, relationHandlersReady := true,
    pebbleReady := true, bootstrapped := false,
    unitStatus := Status.waiting "installing", renderedConfig := none,
    appName := "glance", baseContext := [("debug", "false")] }

/-- Concrete state: no ceph relation, one local storage unit attached. -/
def stateLocal : CharmState :=
  { cephRelationPresent := false, cephKey := none, cephData := [],
    localStorageCount := 1, relationHandlersReady := true,
    pebbleReady := true, bootstrapped := false,
    unitStatus := Status.waiting "installing", renderedConfig := none,
    appName := "glance", baseContext := [("debug", "false")] }

/-- Concrete state: no ceph relation and no local storage. -/
def stateNoStorage : CharmState :=
  { cephRelationPresent := false, cephKey := none, cephData := [],
    localStorageCount := 0, relationHandlersReady := true,
    pebbleReady := true, bootstrapped := false,
    unitStatus := Status.waiting "installing", renderedConfig := none,
    appName := "glance", baseContext := [] }

/-- Concrete state: declared relations have not finished their handshake. -/
def stateRelationsPending : CharmState :=
  { cephRelationPresent := true, cephKey := some "AQCxyz",
    cephData := [("key", "AQCxyz")],
    localStorageCount := 1, relationHandlersReady := false,
    pebbleReady := true, bootstrapped := false,
    unitStatus := Status.waiting "installing", renderedConfig := none,
    appName := "glance", baseContext := [] }

/-- The verdict is Ready(NetworkedRemote k) exactly when the ceph relation
exists and its negotiated key is k. -/
theorem evaluate_networked_iff (s : CharmState) (k : String) :
    evaluate s = ReadinessVerdict.ready (StorageBackend.networkedRemote k)
      ↔ has_ceph_relation s = true ∧ s.cephKey = some k := by
  constructor
  · intro h
    by_cases hp : has_ceph_relation s = true
    · rcases hk : s.cephKey with _ | k2 <;> simp [evaluate, hp, hk] at h
      exact ⟨hp, by simp [hk, h]⟩
    · simp only [Bool.not_eq_true] at hp
      by_cases hl : has_local_storage s = true <;> simp [evaluate, hp, hl] at h
  · rintro ⟨hp, hk⟩
    simp [evaluate, hp, hk]

/-- The verdict is Ready(LocalAttached) exactly when the ceph relation is
absent and local storage is attached. -/
theorem evaluate_local_iff (s : CharmState) :
    evaluate s = ReadinessVerdict.ready StorageBackend.localAttached
      ↔ has_ceph_relation s = false ∧ has_local_storage s = true := by
  constructor
  · intro h
    by_cases hp : has_ceph_relation s = true
    · rcases hk : s.cephKey with _ | k2 <;> simp [evaluate, hp, hk] at h
    · simp only [Bool.not_eq_true] at hp
      by_cases hl : has_local_storage s = true
      · exact ⟨hp, hl⟩
      · simp only [Bool.not_eq_true] at hl
        simp [evaluate, hp, hl] at h
  · rintro ⟨hp, hl⟩
    simp [evaluate, hp, hl]

/-- C1: with the ceph relation present but its readiness sub-check failed,
the evaluation is NotReady whatever the local storage count, and in
particular never Ready. -/
theorem networked_unready_never_local (s : CharmState)
    (hp : has_ceph_relation s = true)
    (hr : cephClientHandlerReady s = false) :
    evaluate s = ReadinessVerdict.notReady "credential key not yet present"
    ∧ ∀ b : StorageBackend, evaluate s ≠ ReadinessVerdict.ready b := by
  have hk : s.cephKey = none := by
    have := hr
    unfold cephClientHandlerReady at this
    exact Option.not_isSome_iff_eq_none.mp (by simp [this])
  constructor
  · simp [evaluate, hp, hk]
  · intro b
    simp [evaluate, hp, hk]

/-- Witness for C1 at a concrete state with local storage attached. -/
theorem networked_unready_never_local_witness :
    evaluate stateCephWaiting
      = ReadinessVerdict.notReady "credential key not yet present" :=
  (networked_unready_never_local stateCephWaiting (by decide) (by decide)).1

/-- C3: with the ceph relation present and its readiness sub-check passed,
the evaluation is Ready(NetworkedRemote k) where k is the negotiated
credential key, whatever the local storage count. -/
theorem networked_ready_uses_key (s : CharmState)
    (hp : has_ceph_relation s = true)
    (hr : cephClientHandlerReady s = true) :
    ∃ k : String, s.cephKey = some k
      ∧ evaluate s = ReadinessVerdict.ready (StorageBackend.networkedRemote k) := by
  obtain ⟨k, hk⟩ := Option.isSome_iff_exists.mp (by simpa [cephClientHandlerReady] using hr)
  exact ⟨k, hk, by simp [evaluate, hp, hk]⟩

/-- Witness for C3 at a concrete state carrying a credential key. -/
theorem networked_ready_uses_key_witness :
    ∃ k : String, stateCephReady.cephKey = some k
      ∧ evaluate stateCephReady
          = ReadinessVerdict.ready (StorageBackend.networkedRemote k) :=
  networked_ready_uses_key stateCephReady (by decide) (by decide)

/-- C4: with the ceph relation absent, Ready(LocalAttached) holds exactly
when local storage is attached; otherwise the verdict is NotReady with the
no-storage reason. -/
theorem local_storage_decides (s : CharmState)
    (hp : has_ceph_relation s = false) :
    (evaluate s = ReadinessVerdict.ready StorageBackend.localAttached
      ↔ 0 < s.localStorageCount)
    ∧ (s.localStorageCount = 0 →
        evaluate s = ReadinessVerdict.notReady "no storage backend configured") := by
  constructor
  · constructor
    · intro h
      by_contra hc
      have h0 : s.localStorageCount = 0 := Nat.eq_zero_of_not_pos hc
      simp [evaluate, hp, has_local_storage, h0] at h
    · intro h
      simp [evaluate, hp, has_local_storage, h]
  · intro h0
    simp [evaluate, hp, has_local_storage, h0]

/-- Witness for C4 at a concrete state with one attached storage unit. -/
theorem local_storage_decides_witness :
    evaluate stateLocal = ReadinessVerdict.ready StorageBackend.localAttached :=
  (local_storage_decides stateLocal (by decide)).1.mpr (by decide)

/-- C5: when the networked backend is active the context export is the
relation's full negotiated-attribute mapping; when local storage is active
it is empty. -/
theorem context_matches_backend (s : CharmState) :
    (∀ k : String, evaluate s = ReadinessVerdict.ready (StorageBackend.networkedRemote k)
        → context s = s.cephData)
    ∧ (evaluate s = ReadinessVerdict.ready StorageBackend.localAttached
        → context s = []) := by
  constructor
  · intro k h
    have hp := ((evaluate_networked_iff s k).mp h).1
    simp [context, hp, cephClientHandlerContext]
  · intro h
    have hp := ((evaluate_local_iff s).mp h).1
    simp [context, hp]

/-- Witness for C5 at a concrete state with the ceph relation active. -/
theorem context_matches_backend_witness :
    context stateCephReady = [("key", "AQCxyz"), ("auth", "cephx")] :=
  (context_matches_backend stateCephReady).1 "AQCxyz" (by decide)

/-- C2 counterexample: with relations ready but neither ceph relation nor
local storage, the status message the code sets names Ceph, not networked
storage, so the claimed exact message does not match. -/
theorem blocked_message_counterexample :
    (configure_charm envAllOk stateNoStorage).state.unitStatus
      = Status.blocked "Missing storage. Relate to Ceph or add local storage to continue."
    ∧ (configure_charm envAllOk stateNoStorage).state.unitStatus
      ≠ Status.blocked
          "Missing storage. Relate to networked storage or add local storage to continue." := by
  decide

/-- C2 (amended): when neither the ceph relation is present nor local
storage is attached, configure_charm sets the unit status to exactly
Blocked with the missing-storage message naming Ceph, and returns without
issuing commands, calling init_service, running the inherited
configuration, starting services, writing configuration, or touching the
bootstrap flag. -/
theorem missing_storage_blocks (env : Env) (s : CharmState)
    (hrel : s.relationHandlersReady = true)
    (hceph : has_ceph_relation s = false)
    (hloc : s.localStorageCount = 0) :
    (configure_charm env s).state.unitStatus
      = Status.blocked "Missing storage. Relate to Ceph or add local storage to continue."
    ∧ (configure_charm env s).cmds = []
    ∧ (configure_charm env s).initServiceCalled = false
    ∧ (configure_charm env s).superConfigureCalled = false
    ∧ (configure_charm env s).servicesStarted = false
    ∧ (configure_charm env s).state.renderedConfig = s.renderedConfig
    ∧ (configure_charm env s).state.bootstrapped = s.bootstrapped := by
  simp [configure_charm, hrel, hceph, has_local_storage, hloc, earlyReturn, blockedMsg]

/-- Witness for C2's amended theorem at the concrete no-storage state. -/
theorem missing_storage_blocks_witness :
    (configure_charm envAllOk stateNoStorage).state.unitStatus
      = Status.blocked "Missing storage. Relate to Ceph or add local storage to continue."
    ∧ (configure_charm envAllOk stateNoStorage).cmds = [] :=
  ⟨(missing_storage_blocks envAllOk stateNoStorage (by decide) (by decide) (by decide)).1,
   (missing_storage_blocks envAllOk stateNoStorage (by decide) (by decide) (by decide)).2.1⟩

/-- C8: while any declared relation has not completed its handshake,
configure_charm is a no-op: the whole state (status and rendered files
included) is unchanged and nothing is executed. -/
theorem relations_pending_noop (env : Env) (s : CharmState)
    (hrel : s.relationHandlersReady = false) :
    configure_charm env s = earlyReturn s
    ∧ (configure_charm env s).state = s
    ∧ (configure_charm env s).cmds = [] := by
  simp [configure_charm, hrel, earlyReturn]

/-- Witness for C8 at a concrete state with a pending handshake. -/
theorem relations_pending_noop_witness :
    (configure_charm envAllOk stateRelationsPending).state = stateRelationsPending :=
  (relations_pending_noop envAllOk stateRelationsPending (by decide)).2.1

/-- C9: the bootstrap flag is monotonic across configure_charm — once set
it stays set — and the start loop runs only when the flag is set. -/
theorem bootstrap_monotonic (env : Env) (s : CharmState) :
    (s.bootstrapped = true → (configure_charm env s).state.bootstrapped = true)
    ∧ ((configure_charm env s).servicesStarted = true →
        (configure_charm env s).state.bootstrapped = true) := by
  cases hrel : s.relationHandlersReady with
  | false => simp [configure_charm, hrel, earlyReturn]
  | true =>
    cases hceph : s.cephRelationPresent with
    | true =>
      rcases hk : s.cephKey with _ | k
      · simp [configure_charm, has_ceph_relation, hrel, hceph, hk, earlyReturn]
      · cases hpeb : s.pebbleReady with
        | false =>
          simp [configure_charm, has_ceph_relation, hrel, hceph, hk, pebbleSection,
                hpeb, finishConfigure, superConfigureCharm]
          tauto
        | true =>
          cases hrun : (runCmds env (provisioningCmds s.appName k)).2 with
          | false =>
            simp [configure_charm, has_ceph_relation, hrel, hceph, hk, pebbleSection,
                  hpeb, hrun]
          | true =>
            simp [configure_charm, has_ceph_relation, hrel, hceph, hk, pebbleSection,
                  hpeb, hrun, finishConfigure, superConfigureCharm]
            tauto
    | false =>
      cases hloc : has_local_storage s with
      | false =>
        simp [configure_charm, has_ceph_relation, hrel, hceph, hloc, earlyReturn]
      | true =>
        cases hpeb : s.pebbleReady with
        | false =>
          simp [configure_charm, has_ceph_relation, hrel, hceph, hloc, pebbleSection,
                hpeb, finishConfigure, superConfigureCharm]
          tauto
        | true =>
          simp [configure_charm, has_ceph_relation, hrel, hceph, hloc, pebbleSection,
                hpeb, finishConfigure, superConfigureCharm]
          tauto

/-- Witness for C9 at a concrete already-bootstrapped state. -/
theorem bootstrap_monotonic_witness :
    (configure_charm envAllOk { stateLocal with bootstrapped := true }).state.bootstrapped
      = true :=
  (bootstrap_monotonic envAllOk { stateLocal with bootstrapped := true }).1 (by decide)

/-- When every command of a batch succeeds, the issued commands are exactly
the batch. -/
theorem runCmds_all_ok (env : Env) (l : List Command)
    (h : (runCmds env l).2 = true) : (runCmds env l).1 = l := by
  induction l with
  | nil => simp [runCmds]
  | cons c rest ih =>
    cases hok : env.execOk c.args with
    | true =>
      simp only [runCmds, hok, if_true] at h ⊢
      simp [ih h]
    | false =>
      cases hf : c.exception_on_error with
      | true => simp [runCmds, hok, hf] at h
      | false =>
        simp only [runCmds, hok, hf, if_false, Bool.false_eq_true] at h ⊢
        simp [ih h]

/-- C10: with the verdict Ready but the pebble handler not ready,
configure_charm issues no commands and skips init_service, yet the
inherited generic configuration still runs and the start loop runs exactly
when the (post-configuration) bootstrap flag is set. -/
theorem ready_without_pebble (env : Env) (s : CharmState)
    (hrel : s.relationHandlersReady = true)
    (hpeb : s.pebbleReady = false)
    (hready : ∃ b : StorageBackend, evaluate s = ReadinessVerdict.ready b) :
    (configure_charm env s).cmds = []
    ∧ (configure_charm env s).initServiceCalled = false
    ∧ (configure_charm env s).superConfigureCalled = true
    ∧ (configure_charm env s).servicesStarted
        = (configure_charm env s).state.bootstrapped := by
  obtain ⟨b, hb⟩ := hready
  cases b with
  | networkedRemote k =>
    obtain ⟨hceph, hk⟩ := (evaluate_networked_iff s k).mp hb
    simp [configure_charm, hrel, hceph, hk, pebbleSection, hpeb, finishConfigure]
  | localAttached =>
    obtain ⟨hceph, hloc⟩ := (evaluate_local_iff s).mp hb
    simp [configure_charm, hrel, hceph, hloc, pebbleSection, hpeb, finishConfigure]

/-- Witness for C10 at a concrete local-storage state without pebble. -/
theorem ready_without_pebble_witness :
    (configure_charm envAllOk { stateLocal with pebbleReady := false }).cmds = []
    ∧ (configure_charm envAllOk
        { stateLocal with pebbleReady := false }).superConfigureCalled = true :=
  ⟨(ready_without_pebble envAllOk { stateLocal with pebbleReady := false }
      (by decide) (by decide) ⟨StorageBackend.localAttached, by decide⟩).1,
   (ready_without_pebble envAllOk { stateLocal with pebbleReady := false }
      (by decide) (by decide) ⟨StorageBackend.localAttached, by decide⟩).2.2.1⟩

/-- C6: with relations ready and the pebble handler available, a
NetworkedRemote verdict makes configure_charm issue exactly the three
provisioning commands in order (repository refresh, client install, keyring
creation embedding the key), each fatal on failure so that any failure
aborts the attempt before init_service and the inherited configuration; a
LocalAttached verdict issues none of them. -/
theorem provisioning_for_networked (env : Env) (s : CharmState)
    (hrel : s.relationHandlersReady = true)
    (hpeb : s.pebbleReady = true) :
    (∀ k : String,
      evaluate s = ReadinessVerdict.ready (StorageBackend.networkedRemote k) →
      (∀ c ∈ provisioningCmds s.appName k, c.exception_on_error = true)
      ∧ ((runCmds env (provisioningCmds s.appName k)).2 = true →
          (configure_charm env s).cmds = provisioningCmds s.appName k
          ∧ (configure_charm env s).initServiceCalled = true
          ∧ (configure_charm env s).aborted = false)
      ∧ ((runCmds env (provisioningCmds s.appName k)).2 = false →
          (configure_charm env s).aborted = true
          ∧ (configure_charm env s).initServiceCalled = false
          ∧ (configure_charm env s).superConfigureCalled = false
          ∧ (configure_charm env s).servicesStarted = false))
    ∧ (evaluate s = ReadinessVerdict.ready StorageBackend.localAttached →
        (configure_charm env s).cmds = []
        ∧ (configure_charm env s).aborted = false) := by
  constructor
  · intro k hb
    obtain ⟨hceph, hk⟩ := (evaluate_networked_iff s k).mp hb
    refine ⟨?_, ?_, ?_⟩
    · intro c hc
      simp [provisioningCmds] at hc
      rcases hc with rfl | rfl | rfl <;> rfl
    · intro hrun
      simp [configure_charm, hrel, hceph, hk, pebbleSection, hpeb, hrun,
            finishConfigure, runCmds_all_ok env _ hrun]
    · intro hrun
      simp [configure_charm, hrel, hceph, hk, pebbleSection, hpeb, hrun]
  · intro hb
    obtain ⟨hceph, hloc⟩ := (evaluate_local_iff s).mp hb
    simp [configure_charm, hrel, hceph, hloc, pebbleSection, hpeb, finishConfigure]

/-- Witness for C6 at a concrete ceph-ready state where all commands
succeed. -/
theorem provisioning_for_networked_witness :
    (configure_charm envAllOk stateCephReady).cmds
      = provisioningCmds "glance" "AQCxyz" :=
  (((provisioning_for_networked envAllOk stateCephReady (by decide) (by decide)).1
      "AQCxyz" (by decide)).2.1 (by decide)).1

/-- C7: configure_charm is idempotent when nothing changes between calls —
after one call, a second call in the same environment leaves the unit
status, the rendered configuration and the bootstrap flag as the first
call left them. -/
theorem configure_idempotent (env : Env) (s : CharmState) :
    (configure_charm env (configure_charm env s).state).state.unitStatus
      = (configure_charm env s).state.unitStatus
    ∧ (configure_charm env (configure_charm env s).state).state.renderedConfig
      = (configure_charm env s).state.renderedConfig
    ∧ (configure_charm env (configure_charm env s).state).state.bootstrapped
      = (configure_charm env s).state.bootstrapped := by
  cases hrel : s.relationHandlersReady with
  | false => simp [configure_charm, hrel, earlyReturn]
  | true =>
    cases hceph : s.cephRelationPresent with
    | true =>
      rcases hk : s.cephKey with _ | k
      · simp [configure_charm, has_ceph_relation, hrel, hceph, hk, earlyReturn]
      · cases hpeb : s.pebbleReady with
        | false =>
          cases hb : s.bootstrapped <;> cases he : env.superBootstraps <;>
            simp [configure_charm, has_ceph_relation, hrel, hceph, hk, pebbleSection,
                  hpeb, finishConfigure, superConfigureCharm, renderConfig, context,
                  cephClientHandlerContext, hb, he]
        | true =>
          cases hrun : (runCmds env (provisioningCmds s.appName k)).2 with
          | false =>
            simp [configure_charm, has_ceph_relation, hrel, hceph, hk, pebbleSection,
                  hpeb, hrun]
          | true =>
            cases hb : s.bootstrapped <;> cases he : env.superBootstraps <;>
              simp [configure_charm, has_ceph_relation, hrel, hceph, hk, pebbleSection,
                    hpeb, hrun, finishConfigure, superConfigureCharm, renderConfig,
                    context, cephClientHandlerContext, hb, he]
    | false =>
      rcases hloc : s.localStorageCount with _ | n
      · simp [configure_charm, has_ceph_relation, has_local_storage, hrel, hceph,
              hloc, earlyReturn]
      · cases hpeb : s.pebbleReady with
        | false =>
          cases hb : s.bootstrapped <;> cases he : env.superBootstraps <;>
            simp [configure_charm, has_ceph_relation, has_local_storage, hrel, hceph,
                  hloc, pebbleSection, hpeb, finishConfigure, superConfigureCharm,
                  renderConfig, context, cephClientHandlerContext, hb, he]
        | true =>
          cases hb : s.bootstrapped <;> cases he : env.superBootstraps <;>
            simp [configure_charm, has_ceph_relation, has_local_storage, hrel, hceph,
                  hloc, pebbleSection, hpeb, finishConfigure, superConfigureCharm,
                  renderConfig, context, cephClientHandlerContext, hb, he]
